import Mathlib

/-!
# Verification of the bumblebees gameplay core

Shallow embedding of the Rust sources of the `bumblebees` wave-based
shooter.  `f32` quantities are modelled exactly by `ℚ`, `u32` quantities by
`ℕ`.  Each definition is translated from the Rust file named in its doc
comment; orchestration code that the crate root (`src/lib.rs`) declares in
the `game_state` module but whose source file is absent from the tree is
modelled from the specification and marked as such.
-/

namespace Bumblebees

/-! ## Constants

The crate's `constants` module is declared by `src/lib.rs` but its file is
absent from the tree; `src/main.rs` defines the same constants as literals
and the spec lists them as part of the observable contract. -/

/-- Modelled from the spec: screen width constant (`SCREEN_WIDTH` in
`src/main.rs`, 800.0). -/
def SCREEN_WIDTH : ℚ := 800

/-- Modelled from the spec: screen height constant (`SCREEN_HEIGHT` in
`src/main.rs`, 600.0). -/
def SCREEN_HEIGHT : ℚ := 600

/-- Modelled from the spec: player speed constant (`PLAYER_SPEED` in
`src/main.rs`, 300.0). -/
def PLAYER_SPEED : ℚ := 300

/-- Modelled from the spec: bullet speed constant (`BULLET_SPEED` in
`src/main.rs`, 500.0). -/
def BULLET_SPEED : ℚ := 500

/-- Modelled from the spec: initial base enemy speed
(`INITIAL_ENEMY_SPEED` in `src/main.rs`, 50.0). -/
def INITIAL_ENEMY_SPEED : ℚ := 50

/-- Modelled from the spec: defender-line offset from the bottom of the
screen (`DEFENDER_LINE` in `src/main.rs`, 100.0). -/
def DEFENDER_LINE : ℚ := 100

/-- Modelled from the spec: the single global collision radius
(`COLLISION_RADIUS` used by `src/systems/collision.rs`; the spec's testable
properties and the literal in `src/main.rs` both fix it at 20.0). -/
def COLLISION_RADIUS : ℚ := 20

/-! ## Entity model (`src/entities/enemy.rs`, `src/entities/bullet.rs`) -/

/-- `EnemyType` from `src/entities/enemy.rs`: closed enumeration of the
four enemy variants. -/
inductive EnemyType where
  | Standard
  | Fast
  | Tank
  | Swooper
  deriving DecidableEq, Repr

namespace EnemyType

/-- `EnemyType::max_health` from `src/entities/enemy.rs`. -/
def max_health : EnemyType → ℕ
  | Standard => 1
  | Fast => 1
  | Tank => 3
  | Swooper => 1

/-- `EnemyType::speed_multiplier` from `src/entities/enemy.rs`
(1.0, 1.5, 0.7, 1.0 as exact rationals). -/
def speed_multiplier : EnemyType → ℚ
  | Standard => 1
  | Fast => 3 / 2
  | Tank => 7 / 10
  | Swooper => 1

/-- `EnemyType::points` from `src/entities/enemy.rs`. -/
def points : EnemyType → ℕ
  | Standard => 10
  | Fast => 20
  | Tank => 50
  | Swooper => 30

end EnemyType

/-- `Enemy` from `src/entities/enemy.rs`: position, movement direction,
type and current health. -/
structure Enemy where
  x : ℚ
  y : ℚ
  direction : ℚ
  enemy_type : EnemyType
  health : ℕ
  deriving DecidableEq, Repr

namespace Enemy

/-- `Enemy::new` from `src/entities/enemy.rs`: health is initialised to
the type's `max_health`. -/
def new (x y direction : ℚ) (enemy_type : EnemyType) : Enemy :=
  { x := x, y := y, direction := direction, enemy_type := enemy_type,
    health := enemy_type.max_health }

/-- `Enemy::update` from `src/entities/enemy.rs`:
`x += direction * (base_speed * speed_multiplier) * dt`. -/
def update (e : Enemy) (base_speed dt : ℚ) : Enemy :=
  { e with x := e.x + e.direction * (base_speed * e.enemy_type.speed_multiplier) * dt }

/-- `Enemy::take_damage` from `src/entities/enemy.rs`.  The Rust method
mutates the enemy and returns a `bool`; here it returns the updated enemy
together with that `bool` (whether health is now exactly 0).  The unsigned
decrement is guarded by `health > 0`. -/
def take_damage (e : Enemy) : Enemy × Bool :=
  let e2 := if 0 < e.health then { e with health := e.health - 1 } else e
  (e2, e2.health == 0)

/-- `Enemy::is_destroyed` from `src/entities/enemy.rs`. -/
def is_destroyed (e : Enemy) : Bool :=
  e.health == 0

/-- `Enemy::has_breached_defender_line` from `src/entities/enemy.rs`:
`self.y > SCREEN_HEIGHT - DEFENDER_LINE`. -/
def has_breached_defender_line (e : Enemy) : Bool :=
  decide (SCREEN_HEIGHT - DEFENDER_LINE < e.y)

end Enemy

/-- `Bullet` from `src/entities/bullet.rs`. -/
structure Bullet where
  x : ℚ
  y : ℚ
  deriving DecidableEq, Repr

namespace Bullet

/-- `Bullet::new` from `src/entities/bullet.rs`. -/
def new (x y : ℚ) : Bullet :=
  { x := x, y := y }

/-- `Bullet::update` from `src/entities/bullet.rs`:
`y -= BULLET_SPEED * dt`. -/
def update (b : Bullet) (dt : ℚ) : Bullet :=
  { b with y := b.y - BULLET_SPEED * dt }

/-- `Bullet::is_out_of_bounds` from `src/entities/bullet.rs`: `y < 0`. -/
def is_out_of_bounds (b : Bullet) : Bool :=
  decide (b.y < 0)

end Bullet

/-! ## Collision system (`src/systems/collision.rs`) -/

/-- Exact model of the `f32` comparison `d.sqrt() < r` used by
`check_collision`: for a nonnegative radicand `d` the real inequality
`Real.sqrt d < r` holds iff `0 < r` and `d < r * r`, which is how the
comparison is expressed here so that it stays decidable over `ℚ`. -/
def sqrt_lt (d r : ℚ) : Bool :=
  decide (0 < r ∧ d < r * r)

/-- `check_collision` from `src/systems/collision.rs`:
`dx = enemy.x - bullet.x`, `dy = enemy.y - bullet.y`, collision iff
`sqrt (dx*dx + dy*dy) < COLLISION_RADIUS`. -/
def check_collision (bullet : Bullet) (enemy : Enemy) : Bool :=
  let dx := enemy.x - bullet.x
  let dy := enemy.y - bullet.y
  sqrt_lt (dx * dx + dy * dy) COLLISION_RADIUS

/-- Inner bullet scan of `process_collisions`
(`src/systems/collision.rs`, lines 49-67): index of the first bullet in
collection order that collides with the enemy, if any. -/
def firstHit (bullets : List Bullet) (e : Enemy) : Option ℕ :=
  bullets.findIdx? (fun b => check_collision b e)

/-- Enemy loop of `process_collisions` (`src/systems/collision.rs`,
lines 44-75), as a recursion over the enemy list: for each enemy the first
colliding bullet (scanned over the full, unmodified bullet list) damages
it; its index is recorded in `bullets_to_remove`; a destroyed enemy is
dropped from the survivor list and contributes a `(x, y, points)` event.
Returns (surviving enemies, bullet indices to remove, destruction
events). -/
def processEnemies : List Enemy → List Bullet → List Enemy × List ℕ × List (ℚ × ℚ × ℕ)
  | [], _ => ([], [], [])
  | e :: rest, bullets =>
    match firstHit bullets e with
    | none =>
      let r := processEnemies rest bullets
      (e :: r.1, r.2.1, r.2.2)
    | some k =>
      let d := e.take_damage
      let r := processEnemies rest bullets
      if d.2 then
        (r.1, k :: r.2.1, (d.1.x, d.1.y, d.1.enemy_type.points) :: r.2.2)
      else
        (d.1 :: r.1, k :: r.2.1, r.2.2)

/-- `Vec::remove(i)`: drop the element at index `i`. -/
def remove_at {α : Type} (l : List α) (i : ℕ) : List α :=
  l.take i ++ l.drop (i + 1)

/-- Insertion step used to model `sort_unstable` on the index list. -/
def insert_sorted (a : ℕ) : List ℕ → List ℕ
  | [] => [a]
  | b :: rest => if a ≤ b then a :: b :: rest else b :: insert_sorted a rest

/-- Model of `bullets_to_remove.sort_unstable()`
(`src/systems/collision.rs`, line 78): insertion sort, extensionally the
same sorted result. -/
def sort_idxs (l : List ℕ) : List ℕ :=
  l.foldr insert_sorted []

/-- `Vec::dedup` (`src/systems/collision.rs`, line 79): removes
consecutive duplicates. -/
def dedup_consecutive : List ℕ → List ℕ
  | [] => []
  | [a] => [a]
  | a :: b :: rest =>
    if a = b then dedup_consecutive (b :: rest)
    else a :: dedup_consecutive (b :: rest)

/-- Bullet removal pass of `process_collisions`
(`src/systems/collision.rs`, lines 77-82): sort the recorded indices,
dedup, and remove them from the bullet list in reverse order. -/
def remove_bullets (bullets : List Bullet) (idxs : List ℕ) : List Bullet :=
  (dedup_consecutive (sort_idxs idxs)).reverse.foldl remove_at bullets

/-- `process_collisions` from `src/systems/collision.rs`: runs the enemy
loop and then the deferred bullet removal.  Returns (surviving enemies,
surviving bullets, destruction events). -/
def process_collisions (enemies : List Enemy) (bullets : List Bullet) :
    List Enemy × List Bullet × List (ℚ × ℚ × ℕ) :=
  let r := processEnemies enemies bullets
  (r.1, remove_bullets bullets r.2.1, r.2.2)

/-- One-enemy outcome of the enemy loop of `process_collisions`: if some
bullet collides, the enemy takes exactly one damage point and is dropped
when that brings (or finds) its health at 0; otherwise it survives
unchanged.  Used to characterise `processEnemies`. -/
def damage_once (bullets : List Bullet) (e : Enemy) : Option Enemy :=
  if (firstHit bullets e).isSome then
    if e.health ≤ 1 then none else some { e with health := e.health - 1 }
  else some e

/-- Whether the enemy loop of `process_collisions` removes this enemy in
this call: some bullet collides and its health is at most 1. -/
def destroyed_this_call (bullets : List Bullet) (e : Enemy) : Bool :=
  (firstHit bullets e).isSome && decide (e.health ≤ 1)

/-! ## Wave generation (`src/systems/wave.rs`) -/

/-- `generate_wave` from `src/systems/wave.rs`: for wave `n` a grid of
`2 + n` rows by 10 columns, iterated column-major (outer loop over the 10
columns `i`, inner loop over the rows `j`), slot `(i, j)` at position
`(50 + i * 60, 100 + j * 50)`.  In the source each slot is passed to
`Enemy::new` as a position only, so the embedding returns the generated
position grid. -/
def generate_wave (wave : ℕ) : List (ℚ × ℚ) :=
  let rows := 2 + wave
  let columns := 10
  (List.range columns).flatMap
    (fun (i : ℕ) =>
      (List.range rows).map (fun (j : ℕ) => (50 + (i : ℚ) * 60, 100 + (j : ℚ) * 50)))

/-! ## Game loop / state machine

`src/lib.rs` declares a `game_state` module exporting `GameState` and
`MainState`, but its source file is absent from the tree; only the entity
and system leaves above, plus the older self-contained prototype in
`src/main.rs`, are present.  The orchestration below is therefore
modelled from the spec (sections 4.2, 4.4, 4.5): it composes the embedded
leaf functions in the per-frame order the spec fixes.  Constants shared
with `src/main.rs` (speed increment 20, drop 20, margins 25, player clamp)
follow that file. -/

/-- `GameState` tag (`src/main.rs` and the spec): Playing or GameOver. -/
inductive GameState where
  | Playing
  | GameOver
  deriving DecidableEq, Repr

/-- Modelled from the spec: the input snapshot the host passes to a tick
(move-left active, move-right active). -/
structure InputState where
  left : Bool
  right : Bool
  deriving DecidableEq, Repr

/-- Modelled from the spec: the owning simulation-state aggregate
(`MainState` of the absent `game_state` module; field set follows the
spec's Simulation State plus the prototype in `src/main.rs`, which has
no score field — score comes from the spec). -/
structure MainState where
  player_x : ℚ
  bullets : List Bullet
  enemies : List Enemy
  direction : ℚ
  enemy_speed : ℚ
  wave : ℕ
  score : ℕ
  state : GameState
  deriving DecidableEq, Repr

/-- Modelled from the spec: construction of one wave's enemy collection
from `generate_wave`'s position grid.  The spec fixes the shared initial
direction at 1.0; it does not fix the per-slot enemy-type distribution,
so `Standard` is used for every slot. -/
def spawn_wave (wave : ℕ) : List Enemy :=
  (generate_wave wave).map (fun p => Enemy.new p.1 p.2 1 EnemyType.Standard)

/-- `next_wave` (`src/main.rs`, lines 115-119): increment the wave number,
regenerate the enemy grid for the new wave number, and add the fixed speed
increment 20 to the base enemy speed. -/
def next_wave (st : MainState) : MainState :=
  { st with wave := st.wave + 1,
            enemies := spawn_wave (st.wave + 1),
            enemy_speed := st.enemy_speed + 20 }

/-- Modelled from the spec: tick phase one, apply the input snapshot to
the player and clamp to `[25, SCREEN_WIDTH - 25]` (`src/main.rs`,
lines 130-139). -/
def apply_input (st : MainState) (inp : InputState) (dt : ℚ) : MainState :=
  let x1 := if inp.left then st.player_x - PLAYER_SPEED * dt else st.player_x
  let x2 := if inp.right then x1 + PLAYER_SPEED * dt else x1
  { st with player_x := max 25 (min x2 (SCREEN_WIDTH - 25)) }

/-- Modelled from the spec: tick phase two, move every enemy by
`Enemy::update` with the shared base speed. -/
def move_enemies (st : MainState) (dt : ℚ) : MainState :=
  { st with enemies := st.enemies.map (fun e => e.update st.enemy_speed dt) }

/-- Modelled from the spec: tick phase three, edge reversal
(`src/main.rs`, lines 147-156): if any enemy sits at or beyond a
horizontal margin after moving, flip the shared direction (and each
enemy's own copy of it) and drop every enemy down by 20. -/
def edge_drop (st : MainState) : MainState :=
  if st.enemies.any (fun e => decide (e.x ≤ 25) || decide (SCREEN_WIDTH - 25 ≤ e.x)) then
    { st with direction := -st.direction,
              enemies := st.enemies.map
                (fun e => { e with direction := -e.direction, y := e.y + 20 }) }
  else st

/-- Modelled from the spec: tick phase four, move every bullet by
`Bullet::update` and cull the out-of-bounds ones
(`Bullet::is_out_of_bounds`). -/
def move_bullets (st : MainState) (dt : ℚ) : MainState :=
  { st with bullets :=
      (st.bullets.map (fun b => b.update dt)).filter (fun b => !b.is_out_of_bounds) }

/-- Modelled from the spec: tick phase five, resolve collisions through
`process_collisions` and add the destroyed enemies' point values to the
score. -/
def collision_step (st : MainState) : MainState :=
  let r := process_collisions st.enemies st.bullets
  { st with enemies := r.1,
            bullets := r.2.1,
            score := st.score + (r.2.2.map (fun ev => ev.2.2)).sum }

/-- Modelled from the spec: tick phase six, wave-clear check — if the
live-enemy collection is empty, run `next_wave`. -/
def wave_step (st : MainState) : MainState :=
  if st.enemies.isEmpty then next_wave st else st

/-- Modelled from the spec: tick phase seven, defender-line breach check —
if any live enemy has breached, transition to GameOver. -/
def breach_step (st : MainState) : MainState :=
  if st.enemies.any Enemy.has_breached_defender_line then
    { st with state := GameState.GameOver }
  else st

/-- Modelled from the spec: the state reached after the movement phases of
a tick (input, enemy movement, edge reversal), before bullets move. -/
def post_move (st : MainState) (inp : InputState) (dt : ℚ) : MainState :=
  edge_drop (move_enemies (apply_input st inp dt) dt)

/-- Modelled from the spec: the state after the collision phase of a tick
(movement phases, bullet movement and culling, collision resolution). -/
def post_collision (st : MainState) (inp : InputState) (dt : ℚ) : MainState :=
  collision_step (move_bullets (post_move st inp dt) dt)

/-- Modelled from the spec: the state right before the breach check of a
tick (everything up to and including the wave-clear check). -/
def pre_breach (st : MainState) (inp : InputState) (dt : ℚ) : MainState :=
  wave_step (post_collision st inp dt)

/-- Modelled from the spec: one full tick (spec section 4.5).  In the
GameOver state a tick does nothing; in the Playing state it runs, in
order: apply input, move enemies, edge reversal, move and cull bullets,
resolve collisions, wave-clear check, defender-line breach check. -/
def tick (st : MainState) (inp : InputState) (dt : ℚ) : MainState :=
  if st.state = GameState.GameOver then st
  else breach_step (pre_breach st inp dt)

/-- `reset` (`src/main.rs`, lines 76-84, plus the spec for the score field
the prototype lacks): restore every field to its session-initial value. -/
def reset (st : MainState) : MainState :=
  { st with player_x := SCREEN_WIDTH / 2,
            bullets := [],
            enemies := spawn_wave 1,
            direction := 1,
            enemy_speed := INITIAL_ENEMY_SPEED,
            wave := 1,
            score := 0,
            state := GameState.Playing }

/-! ## Helper lemmas -/

theorem take_damage_fst (e : Enemy) :
    (e.take_damage).1 = if 0 < e.health then { e with health := e.health - 1 } else e := rfl

theorem take_damage_snd (e : Enemy) :
    (e.take_damage).2 = ((e.take_damage).1.health == 0) := rfl

/-- Characterisation of the enemy loop of `process_collisions`: the
survivors are the enemies that either no bullet reaches or that survive
exactly one damage point; the recorded bullet indices are, in enemy
order, each enemy's first colliding bullet; the destruction events are,
in enemy order, the `(x, y, points)` of exactly the removed enemies. -/
theorem processEnemies_eq (enemies : List Enemy) (bullets : List Bullet) :
    processEnemies enemies bullets =
      (enemies.filterMap (damage_once bullets),
       enemies.filterMap (fun e => firstHit bullets e),
       (enemies.filter (destroyed_this_call bullets)).map
         (fun e => (e.x, e.y, e.enemy_type.points))) := by
  induction enemies with
  | nil => rfl
  | cons e rest ih =>
    cases h : firstHit bullets e with
    | none =>
      simp [processEnemies, h, ih, damage_once, destroyed_this_call]
    | some k =>
      by_cases hh : e.health ≤ 1
      · have h2 : (e.take_damage).2 = true := by
          rw [take_damage_snd, take_damage_fst]
          split <;> simp <;> omega
        have h1 : (e.take_damage).1.x = e.x ∧ (e.take_damage).1.y = e.y ∧
            (e.take_damage).1.enemy_type = e.enemy_type := by
          rw [take_damage_fst]; split <;> simp
        simp [processEnemies, h, ih, damage_once, destroyed_this_call, hh, h2, h1.1,
          h1.2.1, h1.2.2]
      · have h2 : (e.take_damage).2 = false := by
          rw [take_damage_snd, take_damage_fst]
          split <;> simp <;> omega
        have h1 : (e.take_damage).1 = { e with health := e.health - 1 } := by
          rw [take_damage_fst]; split <;> simp_all
        simp [processEnemies, h, ih, damage_once, destroyed_this_call, hh, h2, h1]

theorem damage_once_eq_none_iff (bullets : List Bullet) (e : Enemy) :
    damage_once bullets e = none ↔ destroyed_this_call bullets e = true := by
  simp only [damage_once, destroyed_this_call]
  cases (firstHit bullets e).isSome <;> simp

theorem length_damage_once_add (enemies : List Enemy) (bullets : List Bullet) :
    (enemies.filterMap (damage_once bullets)).length
      + (enemies.filter (destroyed_this_call bullets)).length = enemies.length := by
  induction enemies with
  | nil => rfl
  | cons e rest ih =>
    by_cases hd : destroyed_this_call bullets e = true
    · have hn : damage_once bullets e = none := (damage_once_eq_none_iff bullets e).2 hd
      simp only [List.filterMap_cons, hn, List.filter_cons, hd, if_pos]
      simp only [List.length_cons]
      omega
    · have hs : ∃ a, damage_once bullets e = some a := by
        rcases ho : damage_once bullets e with _ | a
        · exact absurd ((damage_once_eq_none_iff bullets e).1 ho) hd
        · exact ⟨a, rfl⟩
      rcases hs with ⟨a, ha⟩
      simp only [List.filterMap_cons, ha, List.filter_cons, hd, if_neg, List.length_cons]
      simp only [Bool.false_eq_true, if_false, List.length_cons]
      omega

theorem sqrt_lt_iff (d r : ℚ) :
    sqrt_lt d r = true ↔ Real.sqrt (d : ℝ) < (r : ℝ) := by
  simp only [sqrt_lt, decide_eq_true_eq]
  constructor
  · rintro ⟨hr, hdr⟩
    have hr2 : (0 : ℝ) < (r : ℝ) := by exact_mod_cast hr
    rw [Real.sqrt_lt' hr2]
    have : (d : ℝ) < (r : ℝ) * (r : ℝ) := by exact_mod_cast hdr
    calc (d : ℝ) < (r : ℝ) * (r : ℝ) := this
      _ = (r : ℝ) ^ 2 := by ring
  · intro hs
    have hr2 : (0 : ℝ) < (r : ℝ) := lt_of_le_of_lt (Real.sqrt_nonneg _) hs
    have hr : (0 : ℚ) < r := by exact_mod_cast hr2
    refine ⟨hr, ?_⟩
    rw [Real.sqrt_lt' hr2] at hs
    have : (d : ℝ) < (r : ℝ) * (r : ℝ) := by
      calc (d : ℝ) < (r : ℝ) ^ 2 := hs
        _ = (r : ℝ) * (r : ℝ) := by ring
    exact_mod_cast this

theorem check_collision_iff (b : Bullet) (e : Enemy) :
    check_collision b e = true ↔
      Real.sqrt (((e.x : ℝ) - (b.x : ℝ)) ^ 2 + ((e.y : ℝ) - (b.y : ℝ)) ^ 2)
        < ((COLLISION_RADIUS : ℚ) : ℝ) := by
  have hcast : (((e.x - b.x) * (e.x - b.x) + (e.y - b.y) * (e.y - b.y) : ℚ) : ℝ)
      = ((e.x : ℝ) - (b.x : ℝ)) ^ 2 + ((e.y : ℝ) - (b.y : ℝ)) ^ 2 := by
    push_cast
    ring
  rw [check_collision, sqrt_lt_iff, hcast]

/-! ## Claims -/

/-- C1, counterexample: in a single `process_collisions` call with two
Standard enemies at (100, 200) and (110, 200) and ONE bullet at
(105, 200) lying within the collision radius of both, the one bullet is
spent on the first enemy and nevertheless also damages (here destroys)
the second: two destruction events arise from a single bullet, which the
claim rules out. -/
theorem C1_counterexample :
    process_collisions
        [Enemy.new 100 200 1 EnemyType.Standard, Enemy.new 110 200 1 EnemyType.Standard]
        [Bullet.new 105 200] =
      ([], [], [(100, 200, 10), (110, 200, 10)]) := by
  with_unfolding_all decide

/-- C1, amended: in every single call to `process_collisions`, each ENEMY
resolves at most one hit — it is damaged by at most one bullet (its first
colliding bullet in collection order), losing at most one health point —
but a bullet marked as spent is only removed after the whole enemy loop
and may therefore damage several enemies in the same call. -/
theorem C1_theorem (enemies : List Enemy) (bullets : List Bullet) :
    (process_collisions enemies bullets).1 = enemies.filterMap (damage_once bullets) := by
  rw [process_collisions, processEnemies_eq]

/-- C7: a freshly created Tank enemy returns false, false, true from
three consecutive `take_damage` calls; a fourth call is a no-op that
returns true again and leaves health at 0. -/
theorem C7_theorem (x y d : ℚ) :
    (Enemy.new x y d EnemyType.Tank).take_damage.2 = false ∧
    (Enemy.new x y d EnemyType.Tank).take_damage.1.take_damage.2 = false ∧
    (Enemy.new x y d EnemyType.Tank).take_damage.1.take_damage.1.take_damage.2 = true ∧
    (Enemy.new x y d EnemyType.Tank).take_damage.1.take_damage.1.take_damage.1.take_damage.2
      = true ∧
    (Enemy.new x y d EnemyType.Tank).take_damage.1.take_damage.1.take_damage.1.take_damage.1
      = (Enemy.new x y d EnemyType.Tank).take_damage.1.take_damage.1.take_damage.1 ∧
    (Enemy.new x y d EnemyType.Tank).take_damage.1.take_damage.1.take_damage.1.take_damage.1.health
      = 0 := by
  simp [Enemy.new, Enemy.take_damage, EnemyType.max_health]

/-- C8: `check_collision` returns true iff the Euclidean distance between
the bullet's and the enemy's centers is strictly less than the global
collision radius; with radius 20, a bullet at (105, 205) against an enemy
at (100, 200) collides and a bullet at (150, 250) against the same enemy
does not. -/
theorem C8_theorem :
    (∀ (b : Bullet) (e : Enemy), check_collision b e = true ↔
        Real.sqrt (((e.x : ℝ) - (b.x : ℝ)) ^ 2 + ((e.y : ℝ) - (b.y : ℝ)) ^ 2)
          < ((COLLISION_RADIUS : ℚ) : ℝ)) ∧
    check_collision (Bullet.new 105 205) (Enemy.new 100 200 1 EnemyType.Standard) = true ∧
    check_collision (Bullet.new 150 250) (Enemy.new 100 200 1 EnemyType.Standard) = false := by
  refine ⟨check_collision_iff, ?_, ?_⟩ <;> with_unfolding_all decide

/-- C9: health starts at the type's `max_health` on construction and is
monotonically non-increasing: `update` never changes it, `take_damage`
lowers it by at most one, and `take_damage` on an already-destroyed enemy
(health 0) is a guarded no-op returning true rather than an underflow. -/
theorem C9_theorem :
    (∀ (x y d : ℚ) (t : EnemyType), (Enemy.new x y d t).health = t.max_health) ∧
    (∀ e : Enemy, (e.take_damage).1.health ≤ e.health) ∧
    (∀ (e : Enemy) (s dt : ℚ), (e.update s dt).health = e.health) ∧
    (∀ e : Enemy, e.health = 0 → e.take_damage = (e, true)) := by
  refine ⟨fun x y d t => rfl, fun e => ?_, fun e s dt => rfl, fun e he => ?_⟩
  · rw [take_damage_fst]
    split <;> simp
  · simp [Enemy.take_damage, he]

/-- C9, witness: a Tank is created with health `max_health Tank = 3`, and
`take_damage` on a health-0 Standard enemy is a no-op returning true. -/
theorem C9_witness :
    (Enemy.new 1 2 1 EnemyType.Tank).health = EnemyType.Tank.max_health ∧
    (Enemy.mk 0 0 1 EnemyType.Standard 0).take_damage
      = (Enemy.mk 0 0 1 EnemyType.Standard 0, true) :=
  ⟨C9_theorem.1 1 2 1 EnemyType.Tank,
   C9_theorem.2.2.2 (Enemy.mk 0 0 1 EnemyType.Standard 0) rfl⟩

/-- C10: in every `process_collisions` call, the number of destruction
events plus the number of surviving enemies equals the number of enemies
that went in — so there are exactly as many events as removed enemies —
and the events are, in order, exactly the `(x, y, points)` triples of the
removed enemies at removal time (`take_damage` never changes position or
type). -/
theorem C10_theorem (enemies : List Enemy) (bullets : List Bullet) :
    (process_collisions enemies bullets).2.2.length
        + (process_collisions enemies bullets).1.length = enemies.length ∧
    (process_collisions enemies bullets).2.2 =
      (enemies.filter (destroyed_this_call bullets)).map
        (fun e => (e.x, e.y, e.enemy_type.points)) := by
  rw [process_collisions, processEnemies_eq]
  refine ⟨?_, rfl⟩
  simp only [List.length_map]
  have := length_damage_once_add enemies bullets
  omega

theorem length_flatMap_rows {β : Type} (r : ℕ) (g : ℕ → ℕ → β) (l : List ℕ) :
    (l.flatMap (fun i => (List.range r).map (g i))).length = l.length * r := by
  induction l with
  | nil => simp
  | cons a t ih =>
    simp only [List.flatMap_cons, List.length_append, List.length_map, List.length_range, ih,
      List.length_cons]
    ring

/-- C4: for every wave number n ≥ 1, `generate_wave n` produces the
`(2 + n) × 10` grid — `(2 + n) * 10` entries, every entry of the form
`(50 + i * 60, 100 + j * 50)` with column `i < 10` and row `j < 2 + n`,
and every such slot present; in particular wave 1 yields 30 enemies,
wave 2 yields 40, the first generated enemy is at (50, 100) and the one
generated immediately after it — same column, next row down — is at
(50, 150). -/
theorem C4_theorem :
    (∀ n : ℕ, 1 ≤ n →
      (generate_wave n).length = (2 + n) * 10 ∧
      (∀ p ∈ generate_wave n,
        ∃ i : ℕ, i < 10 ∧ ∃ j : ℕ, j < 2 + n ∧
          p = (50 + (i : ℚ) * 60, 100 + (j : ℚ) * 50)) ∧
      (∀ i : ℕ, i < 10 → ∀ j : ℕ, j < 2 + n →
        ((50 + (i : ℚ) * 60, 100 + (j : ℚ) * 50) : ℚ × ℚ) ∈ generate_wave n)) ∧
    (generate_wave 1).length = 30 ∧
    (generate_wave 2).length = 40 ∧
    (generate_wave 1).get? 0 = some (50, 100) ∧
    (generate_wave 1).get? 1 = some (50, 150) := by
  refine ⟨fun n _ => ⟨?_, ?_, ?_⟩, ?_⟩
  · rw [generate_wave, length_flatMap_rows]
    simp [Nat.mul_comm]
  · intro p hp
    simp only [generate_wave, List.mem_flatMap, List.mem_map, List.mem_range] at hp
    obtain ⟨i, hi, j, hj, hp2⟩ := hp
    exact ⟨i, hi, j, hj, hp2.symm⟩
  · intro i hi j hj
    simp only [generate_wave, List.mem_flatMap, List.mem_map, List.mem_range]
    exact ⟨i, hi, j, hj, rfl⟩
  · with_unfolding_all decide

/-- C4, witness: the universally quantified part of C4 instantiated at
wave 1 — the grid has `(2 + 1) * 10 = 30` entries and slot (0, 0) of the
formula, (50, 100), is in the grid. -/
theorem C4_witness :
    (generate_wave 1).length = (2 + 1) * 10 ∧
    ((50 + ((0 : ℕ) : ℚ) * 60, 100 + ((0 : ℕ) : ℚ) * 50) : ℚ × ℚ) ∈ generate_wave 1 :=
  ⟨(C4_theorem.1 1 (by decide)).1,
   (C4_theorem.1 1 (by decide)).2.2 0 (by decide) 0 (by decide)⟩

/-! ## Game-loop lemmas -/

theorem edge_drop_untouched (st : MainState) :
    (edge_drop st).wave = st.wave ∧ (edge_drop st).enemy_speed = st.enemy_speed ∧
    (edge_drop st).state = st.state ∧ (edge_drop st).score = st.score ∧
    (edge_drop st).player_x = st.player_x ∧ (edge_drop st).bullets = st.bullets := by
  rw [edge_drop]
  split <;> exact ⟨rfl, rfl, rfl, rfl, rfl, rfl⟩

theorem post_collision_wave (st : MainState) (inp : InputState) (dt : ℚ) :
    (post_collision st inp dt).wave = st.wave :=
  (edge_drop_untouched (move_enemies (apply_input st inp dt) dt)).1

theorem post_collision_speed (st : MainState) (inp : InputState) (dt : ℚ) :
    (post_collision st inp dt).enemy_speed = st.enemy_speed :=
  (edge_drop_untouched (move_enemies (apply_input st inp dt) dt)).2.1

theorem breach_step_untouched (st : MainState) :
    (breach_step st).wave = st.wave ∧ (breach_step st).enemies = st.enemies ∧
    (breach_step st).enemy_speed = st.enemy_speed ∧ (breach_step st).score = st.score := by
  rw [breach_step]
  split <;> exact ⟨rfl, rfl, rfl, rfl⟩

theorem firstHit_eq_none (bullets : List Bullet) (e : Enemy)
    (h : ∀ b ∈ bullets, check_collision b e = false) : firstHit bullets e = none := by
  rw [firstHit, List.findIdx?_eq_none_iff]
  intro b hb
  simp [h b hb]

theorem processEnemies_no_hit (enemies : List Enemy) (bullets : List Bullet)
    (h : ∀ e ∈ enemies, firstHit bullets e = none) :
    processEnemies enemies bullets = (enemies, [], []) := by
  induction enemies with
  | nil => rfl
  | cons e rest ih =>
    have he : firstHit bullets e = none := h e (by simp)
    have hr := ih (fun e2 he2 => h e2 (by simp [he2]))
    simp [processEnemies, he, hr]

theorem apply_input_zero (st : MainState) (inp : InputState)
    (h25 : 25 ≤ st.player_x) (h775 : st.player_x ≤ SCREEN_WIDTH - 25) :
    apply_input st inp 0 = st := by
  simp only [apply_input, mul_zero, sub_zero, add_zero, ite_self]
  rw [min_eq_left h775, max_eq_right h25]

theorem move_enemies_zero (st : MainState) : move_enemies st 0 = st := by
  have h : ∀ e : Enemy, e.update st.enemy_speed 0 = e := by
    intro e
    rw [Enemy.update]
    simp
  simp [move_enemies, h]

theorem edge_drop_id (st : MainState)
    (h : ∀ e ∈ st.enemies, 25 < e.x ∧ e.x < SCREEN_WIDTH - 25) : edge_drop st = st := by
  rw [edge_drop, if_neg]
  simp only [List.any_eq_true, not_exists, not_and]
  rintro e he
  rcases h e he with ⟨h1, h2⟩
  simp only [Bool.or_eq_true, decide_eq_true_eq]
  rintro (h3 | h3) <;> linarith

theorem move_bullets_zero (st : MainState) (h : ∀ b ∈ st.bullets, 0 ≤ b.y) :
    move_bullets st 0 = st := by
  have hu : ∀ b : Bullet, b.update 0 = b := by
    intro b
    rw [Bullet.update]
    simp
  have hf : ∀ b ∈ st.bullets, (!b.is_out_of_bounds) = true := by
    intro b hb
    simp only [Bullet.is_out_of_bounds, Bool.not_eq_true', decide_eq_false_iff_not, not_lt]
    exact h b hb
  simp only [move_bullets, hu, List.map_id']
  rw [List.filter_eq_self.2 hf]

theorem collision_step_id (st : MainState)
    (h : ∀ e ∈ st.enemies, ∀ b ∈ st.bullets, check_collision b e = false) :
    collision_step st = st := by
  have hp : processEnemies st.enemies st.bullets = (st.enemies, [], []) :=
    processEnemies_no_hit _ _ (fun e he => firstHit_eq_none _ _ (h e he))
  simp [collision_step, process_collisions, hp, remove_bullets, sort_idxs, dedup_consecutive]

theorem wave_step_id (st : MainState) (h : st.enemies ≠ []) : wave_step st = st := by
  rw [wave_step, if_neg]
  simp [List.isEmpty_iff, h]

theorem breach_step_id (st : MainState)
    (h : ∀ e ∈ st.enemies, e.has_breached_defender_line = false) : breach_step st = st := by
  rw [breach_step, if_neg]
  simp only [List.any_eq_true, not_exists, not_and]
  intro e he
  simp [h e he]

/-- C2, counterexample: take the Playing state with one enemy at
(400, 501) — already past the defender line at y = 500 — and one bullet at
(400, 505), and tick with dt = 0.  After the movement phase the live enemy
has breached, yet the bullet destroys it during the collision phase, the
wave-clear check then regenerates wave 2, and the tick ends in Playing,
not GameOver: a breach present after movement does not force GameOver. -/
theorem C2_counterexample :
    (∃ e ∈ (post_move
        (MainState.mk 400 [Bullet.new 400 505] [Enemy.new 400 501 1 EnemyType.Standard]
          1 50 1 0 GameState.Playing)
        (InputState.mk false false) 0).enemies, e.has_breached_defender_line = true) ∧
    (tick
        (MainState.mk 400 [Bullet.new 400 505] [Enemy.new 400 501 1 EnemyType.Standard]
          1 50 1 0 GameState.Playing)
        (InputState.mk false false) 0).state = GameState.Playing := by
  with_unfolding_all decide

/-- C2, amended: in every Playing-state tick, if at the defender-line
breach check — performed once per frame after movement, collision
resolution and wave handling — some live enemy's y position exceeds
`SCREEN_HEIGHT - DEFENDER_LINE`, then the game state is GameOver at the
end of that tick.  (An enemy that breaches after movement but is
destroyed by a collision in the same tick does not trigger the
transition.) -/
theorem C2_theorem (st : MainState) (inp : InputState) (dt : ℚ)
    (hp : st.state = GameState.Playing)
    (hb : ∃ e ∈ (pre_breach st inp dt).enemies, e.has_breached_defender_line = true) :
    (tick st inp dt).state = GameState.GameOver := by
  rw [tick, if_neg (by simp [hp])]
  rw [breach_step, if_pos]
  rw [List.any_eq_true]
  rcases hb with ⟨e, he, hbe⟩
  exact ⟨e, he, hbe⟩

/-- C2, witness for the amended claim: one enemy sits at (400, 501) with
no bullets in flight; it is still live at the breach check, so the dt = 0
tick ends in GameOver. -/
theorem C2_witness :
    (tick
        (MainState.mk 400 [] [Enemy.new 400 501 1 EnemyType.Standard]
          1 50 1 0 GameState.Playing)
        (InputState.mk false false) 0).state = GameState.GameOver :=
  C2_theorem _ _ _ rfl (by with_unfolding_all decide)

/-- C3: in every Playing-state tick in which the live-enemy collection is
empty after the collision phase, the wave number is incremented by 1, the
enemy grid is regenerated for the new wave number, and the base enemy
speed is increased by the fixed additive increment 20. -/
theorem C3_theorem (st : MainState) (inp : InputState) (dt : ℚ)
    (hp : st.state = GameState.Playing)
    (he : (post_collision st inp dt).enemies = []) :
    (tick st inp dt).wave = st.wave + 1 ∧
    (tick st inp dt).enemies = spawn_wave (st.wave + 1) ∧
    (tick st inp dt).enemy_speed = st.enemy_speed + 20 := by
  rw [tick, if_neg (by simp [hp])]
  rw [pre_breach, wave_step, if_pos (by simp [List.isEmpty_iff, he])]
  have hw : (next_wave (post_collision st inp dt)).wave = st.wave + 1 := by
    rw [next_wave]
    simp [post_collision_wave]
  have hen : (next_wave (post_collision st inp dt)).enemies = spawn_wave (st.wave + 1) := by
    rw [next_wave]
    simp [post_collision_wave]
  have hs : (next_wave (post_collision st inp dt)).enemy_speed = st.enemy_speed + 20 := by
    rw [next_wave]
    simp [post_collision_speed]
  refine ⟨?_, ?_, ?_⟩
  · rw [(breach_step_untouched _).1, hw]
  · rw [(breach_step_untouched _).2.1, hen]
  · rw [(breach_step_untouched _).2.2.1, hs]

/-- C3, witness: a Playing state whose single Standard enemy is destroyed
by the one bullet overlapping it on a dt = 0 tick; the enemy collection
empties, so the tick moves from wave 1 to wave 2, regenerates the grid
for wave 2, and raises the base speed from 50 to 70. -/
theorem C3_witness :
    (tick
        (MainState.mk 400 [Bullet.new 105 205] [Enemy.new 100 200 1 EnemyType.Standard]
          1 50 1 0 GameState.Playing)
        (InputState.mk false false) 0).wave = 1 + 1 ∧
    (tick
        (MainState.mk 400 [Bullet.new 105 205] [Enemy.new 100 200 1 EnemyType.Standard]
          1 50 1 0 GameState.Playing)
        (InputState.mk false false) 0).enemies = spawn_wave (1 + 1) ∧
    (tick
        (MainState.mk 400 [Bullet.new 105 205] [Enemy.new 100 200 1 EnemyType.Standard]
          1 50 1 0 GameState.Playing)
        (InputState.mk false false) 0).enemy_speed = 50 + 20 :=
  C3_theorem _ _ _ rfl (by with_unfolding_all decide)

/-- C5, counterexample: a dt = 0 tick is not free of position changes.
In the Playing state with a single enemy at x = 20 — at the left margin,
as happens on the frame after an edge reversal — a tick with dt = 0 moves
nothing by integration, but the edge check still fires on the unchanged
position and drops the enemy from y = 200 to y = 220 (flipping its
direction), so entity positions change. -/
theorem C5_counterexample :
    (MainState.mk 400 [] [Enemy.new 20 200 (-1) EnemyType.Standard]
        (-1) 50 1 0 GameState.Playing).enemies
      = [Enemy.mk 20 200 (-1) EnemyType.Standard 1] ∧
    (tick
        (MainState.mk 400 [] [Enemy.new 20 200 (-1) EnemyType.Standard]
          (-1) 50 1 0 GameState.Playing)
        (InputState.mk false false) 0).enemies
      = [Enemy.mk 20 220 1 EnemyType.Standard 1] := by
  with_unfolding_all decide

/-- C5, amended: a dt = 0 tick in the Playing state changes nothing at
all provided the tick's non-integration checks have nothing to act on at
the entry state: the player is inside its clamp range, every enemy is
strictly inside the horizontal margins (otherwise the edge check still
drops the formation), every bullet is on screen, no bullet already lies
within collision radius of an enemy (otherwise damage is still applied),
the enemy collection is nonempty, and no enemy has breached the defender
line. -/
theorem C5_theorem (st : MainState) (inp : InputState)
    (hp : st.state = GameState.Playing)
    (h25 : 25 ≤ st.player_x) (h775 : st.player_x ≤ SCREEN_WIDTH - 25)
    (hmargin : ∀ e ∈ st.enemies, 25 < e.x ∧ e.x < SCREEN_WIDTH - 25)
    (hbul : ∀ b ∈ st.bullets, 0 ≤ b.y)
    (hnocol : ∀ e ∈ st.enemies, ∀ b ∈ st.bullets, check_collision b e = false)
    (hne : st.enemies ≠ [])
    (hnb : ∀ e ∈ st.enemies, e.has_breached_defender_line = false) :
    tick st inp 0 = st := by
  rw [tick, if_neg (by simp [hp])]
  rw [pre_breach, post_collision, post_move]
  rw [apply_input_zero st inp h25 h775, move_enemies_zero st, edge_drop_id st hmargin,
    move_bullets_zero st hbul, collision_step_id st hnocol, wave_step_id st hne,
    breach_step_id st hnb]

/-- C5, witness for the amended claim: a quiet Playing state (enemy at
(100, 200), bullet at (10, 10), player at 400) is entirely unchanged by a
dt = 0 tick. -/
theorem C5_witness :
    tick
        (MainState.mk 400 [Bullet.new 10 10] [Enemy.new 100 200 1 EnemyType.Standard]
          1 50 1 0 GameState.Playing)
        (InputState.mk true false) 0
      = MainState.mk 400 [Bullet.new 10 10] [Enemy.new 100 200 1 EnemyType.Standard]
          1 50 1 0 GameState.Playing :=
  C5_theorem _ _ rfl (by with_unfolding_all decide) (by with_unfolding_all decide)
    (by with_unfolding_all decide) (by with_unfolding_all decide)
    (by with_unfolding_all decide) (by with_unfolding_all decide)
    (by with_unfolding_all decide)

/-- C6: from every session state that has reached GameOver, `reset`
restores wave 1, score 0, the wave-1 generated enemy grid, an empty
bullet collection, and the Playing state. -/
theorem C6_theorem (st : MainState) (_h : st.state = GameState.GameOver) :
    (reset st).wave = 1 ∧ (reset st).score = 0 ∧ (reset st).enemies = spawn_wave 1 ∧
    (reset st).bullets = [] ∧ (reset st).state = GameState.Playing :=
  ⟨rfl, rfl, rfl, rfl, rfl⟩

/-- C6, witness: resetting a concrete GameOver session (wave 3, score
120, leftover entities) restores the wave-1 defaults. -/
theorem C6_witness :
    (reset (MainState.mk 100 [Bullet.new 100 100] [Enemy.new 50 550 1 EnemyType.Tank]
        (-1) 90 3 120 GameState.GameOver)).wave = 1 ∧
    (reset (MainState.mk 100 [Bullet.new 100 100] [Enemy.new 50 550 1 EnemyType.Tank]
        (-1) 90 3 120 GameState.GameOver)).score = 0 ∧
    (reset (MainState.mk 100 [Bullet.new 100 100] [Enemy.new 50 550 1 EnemyType.Tank]
        (-1) 90 3 120 GameState.GameOver)).enemies = spawn_wave 1 ∧
    (reset (MainState.mk 100 [Bullet.new 100 100] [Enemy.new 50 550 1 EnemyType.Tank]
        (-1) 90 3 120 GameState.GameOver)).bullets = [] ∧
    (reset (MainState.mk 100 [Bullet.new 100 100] [Enemy.new 50 550 1 EnemyType.Tank]
        (-1) 90 3 120 GameState.GameOver)).state = GameState.Playing :=
  C6_theorem _ rfl

end Bumblebees
